import Mathlib

/-!
# Verification of the lizzy stack-lifecycle API (`lizzy/api.py`)

A shallow embedding of the HTTP handlers in `lizzy/api.py`: each handler is a
pure Lean function from an environment (the responses of the external
collaborators: the senza infrastructure tool, the kio artifact registry, and
the stack data source) and the request inputs to an outcome (an HTTP response
or a propagated Python exception) together with the ordered trace of external
calls it performed.

Collaborator modules of the repository that are not part of the provided
source (`lizzy.exceptions`, `lizzy.util`, `lizzy.version`, `lizzy.apps.*`,
`lizzy.models.stack`) are represented only through the interface `api.py`
uses; where their behaviour decides a property they are modelled from the
specification and marked as such in their doc comments.
-/

namespace Lizzy

/-- Modelled from the spec: `lizzy.version.VERSION` (module not under the
provided source) is a fixed version-identifying string; its concrete value is
irrelevant to every property below. -/
def VERSION : String := "lizzy"

/-- `_make_headers` from `api.py`: the fixed version-identifying header. -/
def make_headers : List (String × String) := [("X-Lizzy-Version", VERSION)]

/-- `lizzy.exceptions.ExecutionError`: a failed tool invocation, carrying a
human-readable `message` and the tool's raw `output`. -/
structure ExecutionError where
  message : String
  output : String
  deriving DecidableEq, Repr

/-- `lizzy.exceptions.SenzaRenderError`: failure of `senza.render_definition`. -/
structure SenzaRenderError where
  message : String
  deriving DecidableEq, Repr

/-- `lizzy.exceptions.SenzaDomainsError`: failure of `senza.domains`. -/
structure SenzaDomainsError where
  message : String
  deriving DecidableEq, Repr

/-- `lizzy.exceptions.SenzaTrafficError`: failure of `senza.traffic`. -/
structure SenzaTrafficError where
  message : String
  deriving DecidableEq, Repr

/-- `lizzy.exceptions.ObjectNotFound`: `Stack.get` found no stack for the
identifier `uid`. -/
structure ObjectNotFound where
  uid : String
  deriving DecidableEq, Repr

/-- A stack record as returned by the stack data source (`Stack.list` /
`Stack.get`); only the fields the handlers in `api.py` inspect are kept. -/
structure StackDict where
  name : String
  version : String
  creation_time : Int
  deriving DecidableEq, Repr

/-- The Python exceptions that can escape a handler body in `api.py`. -/
inductive PyExn
  /-- `ValueError` from unpacking the result of `stack_id.rsplit('-', 1)`
  into two variables when the identifier holds no separator. -/
  | valueError
  /-- `lizzy.exceptions.TrafficNotUpdated`, raised in `patch_stack` and not
  caught by any `except` clause of `api.py`. -/
  | trafficNotUpdated (message : String)
  /-- `lizzy.exceptions.ObjectNotFound`, raised by `Stack.get`. -/
  | objectNotFound (uid : String)
  deriving DecidableEq, Repr

/-- The body of an HTTP response produced by a handler. -/
inductive RespBody
  /-- A single stack record. -/
  | stackB (s : StackDict)
  /-- A list of stack records (from `all_stacks`). -/
  | stacksB (l : List StackDict)
  /-- The empty string body returned by a successful `delete_stack`. -/
  | emptyB
  /-- A `connexion.problem(status, title, detail)` body. -/
  | problemB (title detail : String)
  deriving DecidableEq, Repr

/-- An HTTP response: status code, body, and extra headers. -/
structure Resp where
  status : Nat
  body : RespBody
  headers : List (String × String)
  deriving DecidableEq, Repr

/-- What executing a handler body yields: an HTTP response, or a Python
exception propagating out of the handler. -/
inductive Outcome
  | resp (r : Resp)
  | raised (e : PyExn)
  deriving DecidableEq, Repr

/-- One external call performed by a handler, with its arguments. -/
inductive Call
  /-- `senza.render_definition(...)`. -/
  | senzaRender
  /-- `kio.versions_create(application_id, version, artifact)`. -/
  | kioVersionsCreate (application_id version artifact : String)
  /-- `senza.create(...)`. -/
  | senzaCreate
  /-- `senza.patch(stack_name, stack_version, new_ami_image)`. -/
  | senzaPatch (name version image : String)
  /-- `senza.respawn_instances(stack_name, stack_version)`. -/
  | senzaRespawn (name version : String)
  /-- `senza.domains(stack_name)`. -/
  | senzaDomains (name : String)
  /-- `senza.traffic(stack_name, stack_version, percentage)`. -/
  | senzaTraffic (name version : String) (percentage : Int)
  /-- `senza.remove(stack_name, stack_version)`. -/
  | senzaRemove (name version : String)
  /-- `Stack.get(stack_name, stack_version)`. -/
  | stackGet (name version : String)
  /-- `Stack.list()`. -/
  | stackList
  deriving DecidableEq, Repr

/-- Python's `s.rsplit(sep, 1)` over a character list, restricted to the way
`api.py` consumes it: `some (before, after)` splits at the *last* occurrence
of `sep`, `none` means the separator does not occur (so the two-element
unpack `name, version = s.rsplit('-', 1)` raises `ValueError`). -/
def rsplitOnceAux (sep : Char) : List Char → Option (List Char × List Char)
  | [] => none
  | c :: cs =>
    match rsplitOnceAux sep cs with
    | some (l, r) => some (c :: l, r)
    | none => if c = sep then some ([], cs) else none

/-- `stack_id.rsplit('-', 1)` followed by the two-variable unpack, as done by
`get_stack`, `patch_stack` and `delete_stack`. -/
def rsplitOnce (sep : Char) (s : String) : Option (String × String) :=
  match rsplitOnceAux sep s.data with
  | some (l, r) => some (⟨l⟩, ⟨r⟩)
  | none => none

theorem rsplitOnceAux_of_not_mem {sep : Char} {l : List Char} (h : sep ∉ l) :
    rsplitOnceAux sep l = none := by
  induction l with
  | nil => rfl
  | cons c cs ih =>
    have hc : c ≠ sep := fun hc => h (hc ▸ List.mem_cons_self c cs)
    have hcs : sep ∉ cs := fun hm => h (List.mem_cons_of_mem c hm)
    simp [rsplitOnceAux, ih hcs, hc]

theorem rsplitOnceAux_append {sep : Char} (l₁ : List Char) {l₂ : List Char}
    (h : sep ∉ l₂) :
    rsplitOnceAux sep (l₁ ++ sep :: l₂) = some (l₁, l₂) := by
  induction l₁ with
  | nil => simp [rsplitOnceAux, rsplitOnceAux_of_not_mem h]
  | cons c cs ih => simp [rsplitOnceAux, ih]

theorem rsplitOnce_none_of_not_mem {sep : Char} {s : String}
    (h : sep ∉ s.data) : rsplitOnce sep s = none := by
  simp [rsplitOnce, rsplitOnceAux_of_not_mem h]

/-- The `@exception_to_connexion_problem` decorator of `api.py`: catches
`ObjectNotFound` and turns it into a 404 problem with the version header;
every other exception propagates unchanged. -/
def exception_to_connexion_problem (o : Outcome) : Outcome :=
  match o with
  | .raised (.objectNotFound uid) =>
      .resp { status := 404, body := .problemB "Not Found" ("Stack not found: " ++ uid),
              headers := make_headers }
  | o => o

/-- The request body of `PATCH /stacks/{id}`: the two optional fields
`patch_stack` reads. -/
structure PatchRequest where
  new_ami_image : Option String
  new_traffic : Option Int
  deriving DecidableEq, Repr

/-- Modelled from the spec: `lizzy.util.filter_empty_values` (module not under
the provided source) removes empty/absent fields from the patch request before
any operation runs, so that an absent or empty field never triggers its
associated operation. On the two fields of `PatchRequest`: a `new_ami_image`
that is absent or the empty string is dropped; a `new_traffic` that is absent
is dropped. -/
def filter_empty_values (r : PatchRequest) : PatchRequest :=
  { new_ami_image :=
      match r.new_ami_image with
      | some s => if s = "" then none else some s
      | none => none,
    new_traffic := r.new_traffic }

/-- The responses of the external collaborators during one `patch_stack`
request: each field is the result of the corresponding single-shot call,
`Except` errors standing for the exception the call raises. `Stack.get` is
invoked twice (initial fetch and final re-fetch), so it has two entries. -/
structure PatchEnv where
  stackGetFirst : Except ObjectNotFound StackDict
  patchRes : Except ExecutionError Unit
  respawnRes : Except ExecutionError Unit
  domainsRes : Except SenzaDomainsError (List String)
  trafficRes : Except SenzaTrafficError Unit
  stackGetSecond : Except ObjectNotFound StackDict

/-- The body of `patch_stack` from `api.py` (inside the decorators): filter
the request, split the identifier, fetch the stack, run the image-update step
(senza patch + respawn, aborting with a 400 `Image update failed` problem on
`ExecutionError`), run the traffic step (domains query; raise
`TrafficNotUpdated` when no domain is configured, otherwise reassign traffic;
400 `Traffic update failed` problems on `SenzaDomainsError` /
`SenzaTrafficError`), then re-fetch the stack and return it with 202. -/
def patch_stack_inner (env : PatchEnv) (stack_id : String)
    (stack_patch0 : PatchRequest) : Outcome × List Call :=
  let stack_patch := filter_empty_values stack_patch0
  match rsplitOnce '-' stack_id with
  | none => (.raised .valueError, [])
  | some (stack_name, stack_version) =>
    match env.stackGetFirst with
    | .error e => (.raised (.objectNotFound e.uid), [.stackGet stack_name stack_version])
    | .ok _stack_dict =>
      let t₀ : List Call := [.stackGet stack_name stack_version]
      -- `if 'new_ami_image' in stack_patch:`
      let imageStep : Option (Outcome × List Call) :=
        match stack_patch.new_ami_image with
        | none => none
        | some new_ami_image =>
          match env.patchRes with
          | .error e =>
              some (.resp { status := 400, body := .problemB "Image update failed" e.message,
                            headers := make_headers },
                    t₀ ++ [.senzaPatch stack_name stack_version new_ami_image])
          | .ok _ =>
            match env.respawnRes with
            | .error e =>
                some (.resp { status := 400, body := .problemB "Image update failed" e.message,
                              headers := make_headers },
                      t₀ ++ [.senzaPatch stack_name stack_version new_ami_image,
                             .senzaRespawn stack_name stack_version])
            | .ok _ => none
      match imageStep with
      | some out => out
      | none =>
        let t₁ : List Call := t₀ ++
          (match stack_patch.new_ami_image with
           | none => []
           | some new_ami_image =>
               [.senzaPatch stack_name stack_version new_ami_image,
                .senzaRespawn stack_name stack_version])
        -- `if 'new_traffic' in stack_patch:`
        let trafficStep : Option (Outcome × List Call) :=
          match stack_patch.new_traffic with
          | none => none
          | some new_traffic =>
            match env.domainsRes with
            | .error e =>
                some (.resp { status := 400, body := .problemB "Traffic update failed" e.message,
                              headers := make_headers },
                      t₁ ++ [.senzaDomains stack_name])
            | .ok domains =>
              if domains.isEmpty then
                -- `raise TrafficNotUpdated("App does not have a domain.")`;
                -- no `except` clause of `api.py` catches it.
                some (.raised (.trafficNotUpdated "App does not have a domain."),
                      t₁ ++ [.senzaDomains stack_name])
              else
                match env.trafficRes with
                | .error e =>
                    some (.resp { status := 400,
                                  body := .problemB "Traffic update failed" e.message,
                                  headers := make_headers },
                          t₁ ++ [.senzaDomains stack_name,
                                 .senzaTraffic stack_name stack_version new_traffic])
                | .ok _ => none
        match trafficStep with
        | some out => out
        | none =>
          let t₂ : List Call := t₁ ++
            (match stack_patch.new_traffic with
             | none => []
             | some new_traffic =>
                 [.senzaDomains stack_name,
                  .senzaTraffic stack_name stack_version new_traffic])
          -- `# refresh the dict`
          match env.stackGetSecond with
          | .error e => (.raised (.objectNotFound e.uid),
                         t₂ ++ [.stackGet stack_name stack_version])
          | .ok stack_dict =>
              (.resp { status := 202, body := .stackB stack_dict, headers := make_headers },
               t₂ ++ [.stackGet stack_name stack_version])

/-- `patch_stack` as exposed: the body wrapped in
`@exception_to_connexion_problem`. -/
def patch_stack (env : PatchEnv) (stack_id : String) (stack_patch : PatchRequest) :
    Outcome × List Call :=
  let (o, t) := patch_stack_inner env stack_id stack_patch
  (exception_to_connexion_problem o, t)

/-- Modelled from the spec: the translation of an uncaught `TrafficNotUpdated`
(class declared in `lizzy.exceptions`, registration of its HTTP rendering not
under the provided source) into a response: "no routing target configured →
400, explanatory message; not a tool error". Other outcomes pass through. -/
def render_traffic_not_updated (o : Outcome) : Outcome :=
  match o with
  | .raised (.trafficNotUpdated msg) =>
      .resp { status := 400, body := .problemB "Traffic not updated" msg,
              headers := make_headers }
  | o => o

/-- The environment of one `get_stack` request. -/
structure GetEnv where
  stackGet : Except ObjectNotFound StackDict

/-- The body of `get_stack` from `api.py`: split the identifier, fetch the
stack, return it with 200. -/
def get_stack_inner (env : GetEnv) (stack_id : String) : Outcome × List Call :=
  match rsplitOnce '-' stack_id with
  | none => (.raised .valueError, [])
  | some (stack_name, stack_version) =>
    match env.stackGet with
    | .error e => (.raised (.objectNotFound e.uid), [.stackGet stack_name stack_version])
    | .ok stack_dict =>
        (.resp { status := 200, body := .stackB stack_dict, headers := make_headers },
         [.stackGet stack_name stack_version])

/-- `get_stack` as exposed: the body wrapped in
`@exception_to_connexion_problem`. -/
def get_stack (env : GetEnv) (stack_id : String) : Outcome × List Call :=
  let (o, t) := get_stack_inner env stack_id
  (exception_to_connexion_problem o, t)

/-- The environment of one `delete_stack` request. -/
structure DeleteEnv where
  removeRes : Except ExecutionError Unit

/-- `delete_stack` from `api.py` (it carries no
`exception_to_connexion_problem` decorator): split the identifier, invoke
`senza.remove`; on `ExecutionError` return a 500 `Stack deletion failed`
problem whose detail is the exception's raw `output`; on success return the
empty body with 204. -/
def delete_stack (env : DeleteEnv) (stack_id : String) : Outcome × List Call :=
  match rsplitOnce '-' stack_id with
  | none => (.raised .valueError, [])
  | some (stack_name, stack_version) =>
    match env.removeRes with
    | .error e =>
        (.resp { status := 500, body := .problemB "Stack deletion failed" e.output,
                 headers := make_headers },
         [.senzaRemove stack_name stack_version])
    | .ok _ =>
        (.resp { status := 204, body := .emptyB, headers := make_headers },
         [.senzaRemove stack_name stack_version])

/-- The environment of one `all_stacks` request. -/
structure AllEnv where
  listRes : List StackDict

/-- The sort key of `stacks.sort(key=lambda stack: stack['creation_time'])`. -/
def stackLE (a b : StackDict) : Prop := a.creation_time ≤ b.creation_time

instance : DecidableRel stackLE := fun a b =>
  inferInstanceAs (Decidable (a.creation_time ≤ b.creation_time))

instance : IsTotal StackDict stackLE :=
  ⟨fun a b => Int.le_total a.creation_time b.creation_time⟩

instance : IsTrans StackDict stackLE :=
  ⟨fun _ _ _ hab hbc => le_trans hab hbc⟩

/-- `all_stacks` from `api.py`: list the stacks and return them sorted
ascending by creation time with 200. Python's stable in-place `list.sort` is
embedded as insertion sort on the same key. -/
def all_stacks (env : AllEnv) : Outcome × List Call :=
  let sortedStacks := List.insertionSort stackLE env.listRes
  (.resp { status := 200, body := .stacksB sortedStacks, headers := make_headers },
   [.stackList])

instance {ε α : Type} [DecidableEq ε] [DecidableEq α] : DecidableEq (Except ε α) :=
  fun x y =>
  match x, y with
  | .ok a, .ok b => if h : a = b then .isTrue (by simp [h]) else .isFalse (by simp [h])
  | .error a, .error b => if h : a = b then .isTrue (by simp [h]) else .isFalse (by simp [h])
  | .ok _, .error _ => .isFalse (by simp)
  | .error _, .ok _ => .isFalse (by simp)

/-- One resource of the rendered CloudFormation definition, seen through the
lookups `create_stack` performs on it. A lookup is `Except key value`: `.error
k` stands for the `KeyError(k)` the chain of `dict` accesses would raise. -/
structure CFResource where
  /-- `definition['Type']`. -/
  rtype : Except String String
  /-- `yaml.safe_load(definition['Properties']['UserData']['Fn::Base64'])['source']`:
  the deployable-artifact name inside the Taupage user data, `.error k` when
  any key of the chain is missing. -/
  taupageSource : Except String String
  deriving DecidableEq, Repr

/-- The rendered definition `senza.render_definition` returns, seen through
the lookups `create_stack` performs on it. -/
structure CFDefinition where
  /-- `cf_raw_definition['Mappings']['Senza']['Info']['StackName']`. -/
  stackName : Except String String
  /-- `cf_raw_definition['Resources'].items()`, in iteration order. -/
  resources : List (String × CFResource)
  deriving DecidableEq, Repr

/-- One iteration of the `for resource, definition in
cf_raw_definition['Resources'].items():` loop of `create_stack`: when the
resource is an `AWS::AutoScaling::LaunchConfiguration`, read the Taupage
`source` as the new artifact name; otherwise keep the accumulator. -/
def scanStep (artifact_name : Option String) (p : String × CFResource) :
    Except String (Option String) :=
  match p.2.rtype with
  | .error k => .error k
  | .ok t =>
    if t = "AWS::AutoScaling::LaunchConfiguration" then
      match p.2.taupageSource with
      | .error k => .error k
      | .ok src => .ok (some src)
    else
      .ok artifact_name

/-- The `for` loop of `create_stack` over the resources, in iteration order;
a raised `KeyError` (`.error`) aborts the loop. -/
def scanResources : Option String → List (String × CFResource) →
    Except String (Option String)
  | acc, [] => .ok acc
  | acc, p :: ps =>
    match scanStep acc p with
    | .error k => .error k
    | .ok acc' => scanResources acc' ps

/-- The `try`-block of `create_stack` that reads the stack name and scans the
resources for an `AWS::AutoScaling::LaunchConfiguration`, keeping the artifact
name of the last match (the Python loop does not break); a missing key
short-circuits into `.error key` (the `except KeyError` branch). -/
def scanDefinition (cf : CFDefinition) : Except String (String × Option String) :=
  match cf.stackName with
  | .error k => .error k
  | .ok stack_name =>
    match scanResources none cf.resources with
    | .error k => .error k
    | .ok artifact_name => .ok (stack_name, artifact_name)

/-- The request body of `POST /stacks/`, with the fields `create_stack`
reads. -/
structure NewStack where
  keep_stacks : Int
  new_traffic : Int
  image_version : String
  application_version : Option String
  stack_version : String
  senza_yaml : String
  parameters : List String
  disable_rollback : Bool
  deriving DecidableEq, Repr

/-- The responses of the external collaborators during one `create_stack`
request. -/
structure CreateEnv where
  /-- `senza.render_definition(...)`. -/
  renderRes : Except SenzaRenderError CFDefinition
  /-- What `kio.versions_create(...)` returns (a boolean). -/
  kioRes : Bool
  /-- What `senza.create(...)` returns (a boolean). -/
  createRes : Bool
  /-- `Stack.get(stack_name, stack_version)` after a successful create. -/
  stackGet : Except ObjectNotFound StackDict

/-- `create_stack` from `api.py` (it carries no
`exception_to_connexion_problem` decorator): render the definition (400
`Invalid senza yaml` with the tool's message on `SenzaRenderError`), extract
stack name and artifact name (400 `Invalid senza yaml` problems for a missing
key or a missing Taupage component), optionally register the version in kio
(result only logged), invoke `senza.create` (400 `Deployment Failed` when it
reports failure), and on success re-fetch and return the stack with 201. -/
def create_stack (env : CreateEnv) (new_stack : NewStack) : Outcome × List Call :=
  match env.renderRes with
  | .error exception =>
      (.resp { status := 400, body := .problemB "Invalid senza yaml" exception.message,
               headers := make_headers },
       [.senzaRender])
  | .ok cf_raw_definition =>
    match scanDefinition cf_raw_definition with
    | .error missing_property =>
        (.resp { status := 400,
                 body := .problemB "Invalid senza yaml"
                   ("Missing property in senza yaml: '" ++ missing_property ++ "'"),
                 headers := make_headers },
         [.senzaRender])
    | .ok (_stack_name, none) =>
        (.resp { status := 400,
                 body := .problemB "Invalid senza yaml"
                   "Missing component type Senza::TaupageAutoScalingGroup",
                 headers := make_headers },
         [.senzaRender])
    | .ok (stack_name, some artifact_name) =>
      let kioCalls : List Call :=
        match new_stack.application_version with
        | none => []
        | some application_version =>
          -- `if application_version:` is a Python truthiness test: the empty
          -- string is falsy and skips the registration block entirely.
          if application_version = "" then
            []
          else
            -- `if kio.versions_create(...):` — both branches only log.
            if env.kioRes then
              [.kioVersionsCreate stack_name application_version artifact_name]
            else
              [.kioVersionsCreate stack_name application_version artifact_name]
      let t₁ : List Call := .senzaRender :: kioCalls ++ [.senzaCreate]
      if env.createRes then
        match env.stackGet with
        | .error e => (.raised (.objectNotFound e.uid),
                       t₁ ++ [.stackGet stack_name new_stack.stack_version])
        | .ok stack_dict =>
            (.resp { status := 201, body := .stackB stack_dict, headers := make_headers },
             t₁ ++ [.stackGet stack_name new_stack.stack_version])
      else
        (.resp { status := 400, body := .problemB "Deployment Failed"
                   "Senza create command failed.",
                 headers := make_headers },
         t₁)

/-- `not_found_path_handler` from `api.py`:
`connexion.problem(401, 'Unauthorized', '')` — note: no `headers=` argument,
so no extra headers are attached. -/
def not_found_path_handler : Resp :=
  { status := 401, body := .problemB "Unauthorized" "", headers := [] }

/-! ## Helper lemmas -/

theorem scanResources_no_match (rs : List (String × CFResource))
    (acc : Option String)
    (h : ∀ p ∈ rs, ∃ t, p.2.rtype = .ok t ∧
         t ≠ "AWS::AutoScaling::LaunchConfiguration") :
    scanResources acc rs = .ok acc := by
  induction rs generalizing acc with
  | nil => rfl
  | cons p ps ih =>
    obtain ⟨t, ht, hne⟩ := h p (List.mem_cons_self p ps)
    have hps : ∀ q ∈ ps, ∃ t, q.2.rtype = .ok t ∧
        t ≠ "AWS::AutoScaling::LaunchConfiguration" :=
      fun q hq => h q (List.mem_cons_of_mem p hq)
    simp [scanResources, scanStep, ht, hne, ih acc hps]

/-! ## Claims -/

/-- C5 counterexample: the identifier-splitting claim is false for an
arbitrary version string. With `name = "a"` and `version = "b-c"`, splitting
the composite identifier `"a-b-c"` on the last separator yields
`("a-b", "c")`, not the original pair `("a", "b-c")`. -/
theorem C5_counterexample :
    rsplitOnce '-' ("a" ++ "-" ++ "b-c") = some ("a-b", "c") ∧
    rsplitOnce '-' ("a" ++ "-" ++ "b-c") ≠ some ("a", "b-c") := by
  constructor <;> decide

/-- C5 (amended): for every name string, possibly containing the separator
`'-'`, and every version string that does not contain the separator, splitting
the composite identifier `name ++ "-" ++ version` on the last separator
occurrence — the `stack_id.rsplit('-', 1)` of `get_stack`, `patch_stack` and
`delete_stack` — recovers exactly the original `(name, version)` pair. -/
theorem C5_rsplit_roundtrip (name version : String) (h : '-' ∉ version.data) :
    rsplitOnce '-' (name ++ "-" ++ version) = some (name, version) := by
  have hdata : (name ++ "-" ++ version).data = name.data ++ '-' :: version.data := by
    simp [String.data_append]
  simp [rsplitOnce, hdata, rsplitOnceAux_append name.data h]

/-- Witness for C5: splitting `"my-app" ++ "-" ++ "b2"` recovers
`("my-app", "b2")`. -/
theorem C5_rsplit_roundtrip_witness :
    '-' ∉ ("b2" : String).data ∧
    rsplitOnce '-' ("my-app" ++ "-" ++ "b2") = some ("my-app", "b2") :=
  ⟨by decide, C5_rsplit_roundtrip "my-app" "b2" (by decide)⟩

/-- C9: for every list of stacks returned by the underlying listing source
(`Stack.list`), in any order, `all_stacks` returns that list sorted by
creation time in ascending order with status 200 (and performs only the
listing call). -/
theorem C9_all_stacks_sorted (env : AllEnv) :
    ∃ l, all_stacks env =
        (.resp { status := 200, body := .stacksB l, headers := make_headers },
         [.stackList]) ∧
      List.Sorted stackLE l ∧ l.Perm env.listRes :=
  ⟨List.insertionSort stackLE env.listRes, rfl,
   List.sorted_insertionSort stackLE env.listRes,
   List.perm_insertionSort stackLE env.listRes⟩

/-- C10: for every stack identifier containing no separator `'-'`, each of
`get_stack`, `patch_stack` and `delete_stack` propagates the `ValueError`
from the two-element unpack of the one-element `rsplit` result — an unhandled
exception, not a 404 or any other HTTP problem response (in particular the
`exception_to_connexion_problem` decorator does not catch it) — and performs
no tool or data-source call at all. -/
theorem C10_missing_separator (envG : GetEnv) (envP : PatchEnv) (envD : DeleteEnv)
    (stack_id : String) (req : PatchRequest) (h : '-' ∉ stack_id.data) :
    get_stack envG stack_id = (.raised .valueError, []) ∧
    patch_stack envP stack_id req = (.raised .valueError, []) ∧
    delete_stack envD stack_id = (.raised .valueError, []) := by
  have hs := rsplitOnce_none_of_not_mem h
  refine ⟨?_, ?_, ?_⟩ <;>
    simp [get_stack, get_stack_inner, patch_stack, patch_stack_inner,
          delete_stack, exception_to_connexion_problem, hs]

/-- Witness for C10: the identifier `"abc"` holds no separator and all three
handlers raise the unpack `ValueError` without any call. -/
theorem C10_missing_separator_witness :
    '-' ∉ ("abc" : String).data ∧
    (get_stack ⟨.ok ⟨"a", "1", 0⟩⟩ "abc" = (.raised .valueError, []) ∧
     patch_stack ⟨.ok ⟨"a", "1", 0⟩, .ok (), .ok (), .ok [], .ok (), .ok ⟨"a", "1", 0⟩⟩
       "abc" ⟨none, none⟩ = (.raised .valueError, []) ∧
     delete_stack ⟨.ok ()⟩ "abc" = (.raised .valueError, [])) :=
  ⟨by decide,
   C10_missing_separator ⟨.ok ⟨"a", "1", 0⟩⟩
     ⟨.ok ⟨"a", "1", 0⟩, .ok (), .ok (), .ok [], .ok (), .ok ⟨"a", "1", 0⟩⟩
     ⟨.ok ()⟩ "abc" ⟨none, none⟩ (by decide)⟩

/-- C1: for every patch request carrying (after filtering) both a new image
and a new traffic percentage, if the image-update tool step (`senza.patch` or
`senza.respawn_instances`) fails, `patch_stack` returns a 400 `Image update
failed` problem carrying the tool's message, and neither the domain query nor
the traffic-reassignment operation nor the final stack re-fetch is performed
(the single `Stack.get` in the trace is the initial fetch). -/
theorem C1_image_failure_aborts_patch
    (env : PatchEnv) (stack_id : String) (req : PatchRequest)
    (name version image : String) (pct : Int) (s₀ : StackDict) (e : ExecutionError)
    (hsplit : rsplitOnce '-' stack_id = some (name, version))
    (himg : (filter_empty_values req).new_ami_image = some image)
    (_htr : (filter_empty_values req).new_traffic = some pct)
    (hget : env.stackGetFirst = .ok s₀)
    (hfail : env.patchRes = .error e ∨
             (env.patchRes = .ok () ∧ env.respawnRes = .error e)) :
    (patch_stack env stack_id req).1 =
      .resp { status := 400, body := .problemB "Image update failed" e.message,
              headers := make_headers } ∧
    Call.senzaDomains name ∉ (patch_stack env stack_id req).2 ∧
    (∀ q : Int, Call.senzaTraffic name version q ∉ (patch_stack env stack_id req).2) ∧
    (patch_stack env stack_id req).2.count (Call.stackGet name version) = 1 := by
  rcases hfail with hp | ⟨hp, hr⟩
  · simp [patch_stack, patch_stack_inner, exception_to_connexion_problem,
          hsplit, himg, hget, hp, List.count_cons]
  · simp [patch_stack, patch_stack_inner, exception_to_connexion_problem,
          hsplit, himg, hget, hp, hr, List.count_cons]

/-- Witness for C1: a request with both fields set, where `senza.patch`
fails with message `"boom"`. -/
theorem C1_image_failure_aborts_patch_witness :
    rsplitOnce '-' "app-1" = some ("app", "1") ∧
    ((patch_stack
        ⟨.ok ⟨"app", "1", 0⟩, .error ⟨"boom", "out"⟩, .ok (), .ok ["d"], .ok (),
         .ok ⟨"app", "1", 0⟩⟩ "app-1" ⟨some "img", some 7⟩).1 =
      .resp { status := 400, body := .problemB "Image update failed" "boom",
              headers := make_headers } ∧
     Call.senzaDomains "app" ∉
       (patch_stack
         ⟨.ok ⟨"app", "1", 0⟩, .error ⟨"boom", "out"⟩, .ok (), .ok ["d"], .ok (),
          .ok ⟨"app", "1", 0⟩⟩ "app-1" ⟨some "img", some 7⟩).2 ∧
     (∀ q : Int, Call.senzaTraffic "app" "1" q ∉
       (patch_stack
         ⟨.ok ⟨"app", "1", 0⟩, .error ⟨"boom", "out"⟩, .ok (), .ok ["d"], .ok (),
          .ok ⟨"app", "1", 0⟩⟩ "app-1" ⟨some "img", some 7⟩).2) ∧
     (patch_stack
        ⟨.ok ⟨"app", "1", 0⟩, .error ⟨"boom", "out"⟩, .ok (), .ok ["d"], .ok (),
         .ok ⟨"app", "1", 0⟩⟩ "app-1" ⟨some "img", some 7⟩).2.count
       (Call.stackGet "app" "1") = 1) :=
  ⟨by decide,
   C1_image_failure_aborts_patch
     ⟨.ok ⟨"app", "1", 0⟩, .error ⟨"boom", "out"⟩, .ok (), .ok ["d"], .ok (),
      .ok ⟨"app", "1", 0⟩⟩ "app-1" ⟨some "img", some 7⟩
     "app" "1" "img" 7 ⟨"app", "1", 0⟩ ⟨"boom", "out"⟩
     (by decide) (by decide) (by decide) rfl (.inl rfl)⟩

/-- C2: for every patch request carrying (after filtering) a new traffic
percentage, whose image step, if present, succeeds, when the domain query for
the stack's name returns no domains, `patch_stack` fails with the
`TrafficNotUpdated` exception — rendered (per the spec-modelled translation)
as a 400 response with the explanatory message — and the traffic-reassignment
operation `senza.traffic` is never invoked. -/
theorem C2_no_domain_traffic_not_updated
    (env : PatchEnv) (stack_id : String) (req : PatchRequest)
    (name version : String) (pct : Int) (s₀ : StackDict)
    (hsplit : rsplitOnce '-' stack_id = some (name, version))
    (htr : (filter_empty_values req).new_traffic = some pct)
    (himg : (filter_empty_values req).new_ami_image = none ∨
            (env.patchRes = .ok () ∧ env.respawnRes = .ok ()))
    (hget : env.stackGetFirst = .ok s₀)
    (hdom : env.domainsRes = .ok []) :
    (patch_stack env stack_id req).1 =
      .raised (.trafficNotUpdated "App does not have a domain.") ∧
    render_traffic_not_updated (patch_stack env stack_id req).1 =
      .resp { status := 400,
              body := .problemB "Traffic not updated" "App does not have a domain.",
              headers := make_headers } ∧
    (∀ q : Int, Call.senzaTraffic name version q ∉ (patch_stack env stack_id req).2) := by
  rcases himg with hi | ⟨hp, hr⟩
  · rcases h : (filter_empty_values req).new_ami_image with _ | img
    · simp [patch_stack, patch_stack_inner, exception_to_connexion_problem,
            render_traffic_not_updated, hsplit, htr, h, hget, hdom]
    · simp [hi] at h
  · rcases h : (filter_empty_values req).new_ami_image with _ | img <;>
      simp [patch_stack, patch_stack_inner, exception_to_connexion_problem,
            render_traffic_not_updated, hsplit, htr, h, hget, hdom, hp, hr]

/-- Witness for C2: a traffic-only request against a stack with no domain. -/
theorem C2_no_domain_traffic_not_updated_witness :
    rsplitOnce '-' "app-1" = some ("app", "1") ∧
    ((patch_stack ⟨.ok ⟨"app", "1", 0⟩, .ok (), .ok (), .ok [], .ok (),
        .ok ⟨"app", "1", 0⟩⟩ "app-1" ⟨none, some 50⟩).1 =
      .raised (.trafficNotUpdated "App does not have a domain.") ∧
     render_traffic_not_updated
       (patch_stack ⟨.ok ⟨"app", "1", 0⟩, .ok (), .ok (), .ok [], .ok (),
         .ok ⟨"app", "1", 0⟩⟩ "app-1" ⟨none, some 50⟩).1 =
      .resp { status := 400,
              body := .problemB "Traffic not updated" "App does not have a domain.",
              headers := make_headers } ∧
     (∀ q : Int, Call.senzaTraffic "app" "1" q ∉
       (patch_stack ⟨.ok ⟨"app", "1", 0⟩, .ok (), .ok (), .ok [], .ok (),
         .ok ⟨"app", "1", 0⟩⟩ "app-1" ⟨none, some 50⟩).2)) :=
  ⟨by decide,
   C2_no_domain_traffic_not_updated
     ⟨.ok ⟨"app", "1", 0⟩, .ok (), .ok (), .ok [], .ok (), .ok ⟨"app", "1", 0⟩⟩
     "app-1" ⟨none, some 50⟩ "app" "1" 50 ⟨"app", "1", 0⟩
     (by decide) (by decide) (.inl (by decide)) rfl rfl⟩

/-- C6: for every patch request in which, after filtering, neither the
new-image field nor the new-traffic field is present, `patch_stack` performs
no mutating tool call — its trace is exactly the initial fetch and the final
re-fetch — and returns status 202 with the stack state freshly re-fetched by
`(name, version)`. -/
theorem C6_empty_patch_is_noop
    (env : PatchEnv) (stack_id : String) (req : PatchRequest)
    (name version : String) (s₀ s₁ : StackDict)
    (hsplit : rsplitOnce '-' stack_id = some (name, version))
    (himg : (filter_empty_values req).new_ami_image = none)
    (htr : (filter_empty_values req).new_traffic = none)
    (hget₁ : env.stackGetFirst = .ok s₀)
    (hget₂ : env.stackGetSecond = .ok s₁) :
    patch_stack env stack_id req =
      (.resp { status := 202, body := .stackB s₁, headers := make_headers },
       [.stackGet name version, .stackGet name version]) := by
  simp [patch_stack, patch_stack_inner, exception_to_connexion_problem,
        hsplit, himg, htr, hget₁, hget₂]

/-- Witness for C6: a request whose only field is an empty-string image,
filtered away; the 202 response carries the re-fetched (second) state. -/
theorem C6_empty_patch_is_noop_witness :
    rsplitOnce '-' "app-1" = some ("app", "1") ∧
    patch_stack ⟨.ok ⟨"app", "1", 0⟩, .ok (), .ok (), .ok [], .ok (),
        .ok ⟨"app", "1", 3⟩⟩ "app-1" ⟨some "", none⟩ =
      (.resp { status := 202, body := .stackB ⟨"app", "1", 3⟩,
               headers := make_headers },
       [.stackGet "app" "1", .stackGet "app" "1"]) :=
  ⟨by decide,
   C6_empty_patch_is_noop
     ⟨.ok ⟨"app", "1", 0⟩, .ok (), .ok (), .ok [], .ok (), .ok ⟨"app", "1", 3⟩⟩
     "app-1" ⟨some "", none⟩ "app" "1" ⟨"app", "1", 0⟩ ⟨"app", "1", 3⟩
     (by decide) (by decide) (by decide) rfl rfl⟩

/-- C7: for every delete request with a well-formed identifier, when the tool
removal call fails, `delete_stack` returns a 500 `Stack deletion failed`
response whose body detail is the tool's raw `output` verbatim (not only its
message); on tool success it returns the empty body with status 204. -/
theorem C7_delete_failure_raw_output
    (env : DeleteEnv) (stack_id name version : String)
    (hsplit : rsplitOnce '-' stack_id = some (name, version)) :
    (∀ e : ExecutionError, env.removeRes = .error e →
      delete_stack env stack_id =
        (.resp { status := 500, body := .problemB "Stack deletion failed" e.output,
                 headers := make_headers },
         [.senzaRemove name version])) ∧
    (env.removeRes = .ok () →
      delete_stack env stack_id =
        (.resp { status := 204, body := .emptyB, headers := make_headers },
         [.senzaRemove name version])) := by
  constructor
  · intro e he
    simp [delete_stack, hsplit, he]
  · intro hok
    simp [delete_stack, hsplit, hok]

/-- Witness for C7: deleting `"app-1"`; with a failing removal whose raw
output is `"line1 line2"` the handler responds 500 with that exact detail. -/
theorem C7_delete_failure_raw_output_witness :
    rsplitOnce '-' "app-1" = some ("app", "1") ∧
    ((∀ e : ExecutionError,
        (⟨.error ⟨"msg", "line1 line2"⟩⟩ : DeleteEnv).removeRes = .error e →
        delete_stack ⟨.error ⟨"msg", "line1 line2"⟩⟩ "app-1" =
          (.resp { status := 500, body := .problemB "Stack deletion failed" e.output,
                   headers := make_headers },
           [.senzaRemove "app" "1"])) ∧
     ((⟨.error ⟨"msg", "line1 line2"⟩⟩ : DeleteEnv).removeRes = .ok () →
        delete_stack ⟨.error ⟨"msg", "line1 line2"⟩⟩ "app-1" =
          (.resp { status := 204, body := .emptyB, headers := make_headers },
           [.senzaRemove "app" "1"]))) :=
  ⟨by decide,
   C7_delete_failure_raw_output ⟨.error ⟨"msg", "line1 line2"⟩⟩ "app-1" "app" "1"
     (by decide)⟩

/-- C3: for every create request whose rendered definition contains no
resource of type `AWS::AutoScaling::LaunchConfiguration` (so no
deployable-artifact name is found), `create_stack` returns a 400 `Invalid
senza yaml` problem naming the missing component
(`Missing component type Senza::TaupageAutoScalingGroup`), and neither the
artifact registrar (`kio.versions_create`) nor the create-stack tool call
(`senza.create`) is invoked: the trace holds only the render call. -/
theorem C3_missing_component_aborts_creation
    (env : CreateEnv) (ns : NewStack) (cf : CFDefinition) (sn : String)
    (hrender : env.renderRes = .ok cf)
    (hname : cf.stackName = .ok sn)
    (hres : ∀ p ∈ cf.resources, ∃ t, p.2.rtype = .ok t ∧
            t ≠ "AWS::AutoScaling::LaunchConfiguration") :
    (create_stack env ns).1 =
      .resp { status := 400,
              body := .problemB "Invalid senza yaml"
                "Missing component type Senza::TaupageAutoScalingGroup",
              headers := make_headers } ∧
    (create_stack env ns).2 = [.senzaRender] ∧
    (∀ a v art, Call.kioVersionsCreate a v art ∉ (create_stack env ns).2) ∧
    Call.senzaCreate ∉ (create_stack env ns).2 := by
  have hfold := scanResources_no_match cf.resources none hres
  simp [create_stack, scanDefinition, hrender, hname, hfold]

/-- Witness for C3: a rendered definition with a single non-launch-config
resource. -/
theorem C3_missing_component_aborts_creation_witness :
    ((⟨.ok ⟨.ok "app", [("R1", ⟨.ok "AWS::IAM::Role", .ok "src"⟩)]⟩, true, true,
        .ok ⟨"app", "1", 0⟩⟩ : CreateEnv).renderRes =
      .ok ⟨.ok "app", [("R1", ⟨.ok "AWS::IAM::Role", .ok "src"⟩)]⟩) ∧
    ((create_stack
        ⟨.ok ⟨.ok "app", [("R1", ⟨.ok "AWS::IAM::Role", .ok "src"⟩)]⟩, true, true,
         .ok ⟨"app", "1", 0⟩⟩
        ⟨1, 100, "i1", some "v1", "1", "yaml", [], false⟩).1 =
      .resp { status := 400,
              body := .problemB "Invalid senza yaml"
                "Missing component type Senza::TaupageAutoScalingGroup",
              headers := make_headers } ∧
     (create_stack
        ⟨.ok ⟨.ok "app", [("R1", ⟨.ok "AWS::IAM::Role", .ok "src"⟩)]⟩, true, true,
         .ok ⟨"app", "1", 0⟩⟩
        ⟨1, 100, "i1", some "v1", "1", "yaml", [], false⟩).2 = [.senzaRender] ∧
     (∀ a v art, Call.kioVersionsCreate a v art ∉
       (create_stack
         ⟨.ok ⟨.ok "app", [("R1", ⟨.ok "AWS::IAM::Role", .ok "src"⟩)]⟩, true, true,
          .ok ⟨"app", "1", 0⟩⟩
         ⟨1, 100, "i1", some "v1", "1", "yaml", [], false⟩).2) ∧
     Call.senzaCreate ∉
       (create_stack
         ⟨.ok ⟨.ok "app", [("R1", ⟨.ok "AWS::IAM::Role", .ok "src"⟩)]⟩, true, true,
          .ok ⟨"app", "1", 0⟩⟩
         ⟨1, 100, "i1", some "v1", "1", "yaml", [], false⟩).2) :=
  ⟨rfl,
   C3_missing_component_aborts_creation
     ⟨.ok ⟨.ok "app", [("R1", ⟨.ok "AWS::IAM::Role", .ok "src"⟩)]⟩, true, true,
      .ok ⟨"app", "1", 0⟩⟩
     ⟨1, 100, "i1", some "v1", "1", "yaml", [], false⟩
     ⟨.ok "app", [("R1", ⟨.ok "AWS::IAM::Role", .ok "src"⟩)]⟩ "app"
     rfl rfl
     (by
       intro p hp
       simp only [List.mem_singleton] at hp
       subst hp
       exact ⟨"AWS::IAM::Role", rfl, by decide⟩)⟩

/-- C4: for every create request with an application version supplied (a
non-empty one — an empty string is falsy in Python, so
`if application_version:` never reaches the registry call and the premise
that the call reports failure cannot arise), when the artifact-registry call
`kio.versions_create` reports failure, `create_stack` still proceeds to
`senza.create`, and if that call succeeds it returns the re-fetched stack
with status 201; moreover the whole result is independent of the
registration outcome. -/
theorem C4_registration_failure_nonfatal
    (env : CreateEnv) (ns : NewStack) (cf : CFDefinition)
    (sn artifact av : String) (s : StackDict)
    (hrender : env.renderRes = .ok cf)
    (hscan : scanDefinition cf = .ok (sn, some artifact))
    (hav : ns.application_version = some av)
    (hne : av ≠ "")
    (hkio : env.kioRes = false)
    (hcreate : env.createRes = true)
    (hget : env.stackGet = .ok s) :
    create_stack env ns =
      (.resp { status := 201, body := .stackB s, headers := make_headers },
       [.senzaRender, .kioVersionsCreate sn av artifact, .senzaCreate,
        .stackGet sn ns.stack_version]) ∧
    (∀ b : Bool, create_stack { env with kioRes := b } ns = create_stack env ns) := by
  constructor
  · simp [create_stack, hrender, hscan, hav, hne, hkio, hcreate, hget]
  · intro b
    cases b <;>
      simp [create_stack, hrender, hscan, hav, hne, hkio, hcreate, hget]

/-- Witness for C4: a request with application version `"v1"`, failing kio
registration, succeeding `senza.create`. -/
theorem C4_registration_failure_nonfatal_witness :
    ((⟨.ok ⟨.ok "app", [("R1", ⟨.ok "AWS::AutoScaling::LaunchConfiguration",
          .ok "art"⟩)]⟩, false, true, .ok ⟨"app", "1", 0⟩⟩ : CreateEnv).renderRes =
      .ok ⟨.ok "app", [("R1", ⟨.ok "AWS::AutoScaling::LaunchConfiguration",
          .ok "art"⟩)]⟩) ∧
    (create_stack
        ⟨.ok ⟨.ok "app", [("R1", ⟨.ok "AWS::AutoScaling::LaunchConfiguration",
            .ok "art"⟩)]⟩, false, true, .ok ⟨"app", "1", 0⟩⟩
        ⟨1, 100, "i1", some "v1", "1", "yaml", [], false⟩ =
      (.resp { status := 201, body := .stackB ⟨"app", "1", 0⟩,
               headers := make_headers },
       [.senzaRender, .kioVersionsCreate "app" "v1" "art", .senzaCreate,
        .stackGet "app" "1"]) ∧
     (∀ b : Bool, create_stack
        ⟨.ok ⟨.ok "app", [("R1", ⟨.ok "AWS::AutoScaling::LaunchConfiguration",
            .ok "art"⟩)]⟩, b, true, .ok ⟨"app", "1", 0⟩⟩
        ⟨1, 100, "i1", some "v1", "1", "yaml", [], false⟩ =
      create_stack
        ⟨.ok ⟨.ok "app", [("R1", ⟨.ok "AWS::AutoScaling::LaunchConfiguration",
            .ok "art"⟩)]⟩, false, true, .ok ⟨"app", "1", 0⟩⟩
        ⟨1, 100, "i1", some "v1", "1", "yaml", [], false⟩)) :=
  ⟨rfl,
   C4_registration_failure_nonfatal
     ⟨.ok ⟨.ok "app", [("R1", ⟨.ok "AWS::AutoScaling::LaunchConfiguration",
         .ok "art"⟩)]⟩, false, true, .ok ⟨"app", "1", 0⟩⟩
     ⟨1, 100, "i1", some "v1", "1", "yaml", [], false⟩
     ⟨.ok "app", [("R1", ⟨.ok "AWS::AutoScaling::LaunchConfiguration", .ok "art"⟩)]⟩
     "app" "art" "v1" ⟨"app", "1", 0⟩
     rfl (by decide) rfl (by decide) rfl rfl rfl⟩

/-- Whether an outcome, when it is an HTTP response, carries the fixed
version-identifying header. A propagated exception is vacuously fine: it is
not a response produced by the handler. -/
def carries_version_header : Outcome → Prop
  | .resp r => ("X-Lizzy-Version", VERSION) ∈ r.headers
  | .raised _ => True

/-- C8 counterexample: the not-found path fallback response does not carry
the `X-Lizzy-Version` header — `not_found_path_handler` calls
`connexion.problem(401, 'Unauthorized', '')` without the `headers=` argument,
so the claim that every response, including the not-found path fallback,
carries the header is false. -/
theorem C8_counterexample :
    ("X-Lizzy-Version", VERSION) ∉ not_found_path_handler.headers := by
  decide

/-- C8 (amended): every response produced by the five API handlers, success
or failure, carries the fixed `X-Lizzy-Version` header; the not-found path
fallback alone attaches no headers at all. -/
theorem C8_version_header_on_handlers
    (envA : AllEnv) (envC : CreateEnv) (envG : GetEnv) (envP : PatchEnv)
    (envD : DeleteEnv) (ns : NewStack) (stack_id : String) (req : PatchRequest) :
    carries_version_header (all_stacks envA).1 ∧
    carries_version_header (create_stack envC ns).1 ∧
    carries_version_header (get_stack envG stack_id).1 ∧
    carries_version_header (patch_stack envP stack_id req).1 ∧
    carries_version_header (delete_stack envD stack_id).1 ∧
    not_found_path_handler.headers = [] := by
  refine ⟨?_, ?_, ?_, ?_, ?_, rfl⟩
  · simp [all_stacks, carries_version_header, make_headers]
  · rcases hR : envC.renderRes with eR | cf
    · simp [create_stack, hR, carries_version_header, make_headers]
    · rcases hS : scanDefinition cf with k | ⟨sn, _ | a⟩
      · simp [create_stack, hR, hS, carries_version_header, make_headers]
      · simp [create_stack, hR, hS, carries_version_header, make_headers]
      · rcases hA : ns.application_version with _ | av <;>
        rcases hC : envC.createRes with _ | _ <;>
        rcases hG : envC.stackGet with e | s <;>
          simp [create_stack, hR, hS, hA, hC, hG,
                carries_version_header, make_headers]
  · rcases hs : rsplitOnce '-' stack_id with _ | ⟨n, v⟩ <;>
    rcases hg : envG.stackGet with e | s <;>
      simp [get_stack, get_stack_inner, exception_to_connexion_problem,
            hs, hg, carries_version_header, make_headers]
  · rcases hs : rsplitOnce '-' stack_id with _ | ⟨n, v⟩ <;>
    rcases h1 : envP.stackGetFirst with e0 | s₀ <;>
    rcases hi : (filter_empty_values req).new_ami_image with _ | img <;>
    rcases hp : envP.patchRes with ep | ⟨⟩ <;>
    rcases hr : envP.respawnRes with er | ⟨⟩ <;>
    rcases ht : (filter_empty_values req).new_traffic with _ | pct <;>
    rcases hd : envP.domainsRes with ed | (_ | ⟨d, ds⟩) <;>
    rcases ht2 : envP.trafficRes with et | ⟨⟩ <;>
    rcases h2 : envP.stackGetSecond with e2 | s₁ <;>
      simp [patch_stack, patch_stack_inner, exception_to_connexion_problem,
            hs, h1, hi, hp, hr, ht, hd, ht2, h2,
            carries_version_header, make_headers]
  · rcases hs : rsplitOnce '-' stack_id with _ | ⟨n, v⟩ <;>
    rcases hr : envD.removeRes with e | ⟨⟩ <;>
      simp [delete_stack, hs, hr, carries_version_header, make_headers]

end Lizzy
